import Mathlib

/-!
Verification of the SWE-bench datapoint validator
(`swe_bench_validator/cli.py`) against its specification.

The development shallowly embeds the Python module:

* Python values produced by `json.loads` (and stored in datapoints) become
  the inductive type `PyVal`; Python dicts become association lists with
  first-match lookup and in-place update (`dictGet` / `dictSet`), which is
  exactly the observable behaviour of `dict` for the operations the code
  uses (`in`, `[]`, `.get`, assignment).
* `json.loads` becomes the executable fuelled parser `json_loads`, accepting
  the JSON grammar CPython's `json` module accepts (including `NaN` /
  `Infinity` constants, strict strings, and last-key-wins objects).
* The pure functions `parse_list_field`, `validate_datapoint_schema`,
  `build_predictions`, `detect_dataset_name` are translated directly.
* The orchestrator `main` becomes `mainRun`, a pure function over an
  environment `Env` that supplies the results of the impure questions the
  code asks (does a path exist, what does loading a file give, what did the
  harness subprocess do).  Its observable outcome is a `RunResult`: the
  process exit code, the predictions-file contents if one was written,
  whether validation ran, and whether the harness was invoked.  `processRun`
  adds the click argument layer in front of the body: the
  `Path(exists=True)` pre-check on every raw `files` argument, whose
  failure aborts the process with usage-error exit code 2.
-/

set_option linter.unusedVariables false

/-- Python runtime values that can appear in a datapoint dictionary after
`json.load`.  Floats are kept as their source lexeme: the validator never
computes with them, only (at most) stringifies them. -/
inductive PyVal where
  | none_ : PyVal
  | bool : Bool → PyVal
  | int : Int → PyVal
  | float : String → PyVal
  | str : String → PyVal
  | list : List PyVal → PyVal
  | dict : List (String × PyVal) → PyVal

/-- A Python dict with string keys: an association list, first match wins on
lookup, and updates replace in place (Python dicts keep insertion order and
keep a key's position on value update). -/
abbrev PyDict := List (String × PyVal)

/-- Python `k in d` / `d[k]` lookup (`none` = would raise `KeyError`). -/
def dictGet (d : PyDict) (k : String) : Option PyVal :=
  match d with
  | [] => none
  | (k', v) :: rest => if k' = k then some v else dictGet rest k

/-- Python `k in d`. -/
def dictContains (d : PyDict) (k : String) : Bool :=
  (dictGet d k).isSome

/-- Python `d.get(k, dflt)`. -/
def dictGetD (d : PyDict) (k : String) (dflt : PyVal) : PyVal :=
  (dictGet d k).getD dflt

/-- Python `d[k] = v`: replace the first binding of `k` in place, else
append a new binding at the end. -/
def dictSet (d : PyDict) (k : String) (v : PyVal) : PyDict :=
  match d with
  | [] => [(k, v)]
  | (k', v') :: rest => if k' = k then (k, v) :: rest else (k', v') :: dictSet rest k v

theorem dictGet_set_self (d : PyDict) (k : String) (v : PyVal) :
    dictGet (dictSet d k v) k = some v := by
  induction d with
  | nil => simp [dictSet, dictGet]
  | cons kv rest ih =>
    by_cases h : kv.1 = k
    · simp [dictSet, dictGet, h]
    · simp [dictSet, dictGet, h, ih]

theorem dictGet_set_ne (d : PyDict) (k k' : String) (v : PyVal) (h : k' ≠ k) :
    dictGet (dictSet d k v) k' = dictGet d k' := by
  induction d with
  | nil => simp [dictSet, dictGet, if_neg (Ne.symm h)]
  | cons kv rest ih =>
    by_cases hk : kv.1 = k
    · simp [dictSet, dictGet, hk, if_neg (Ne.symm h)]
    · simp only [dictSet, hk, if_false, dictGet]
      by_cases hk' : kv.1 = k' <;> simp [hk', ih]

theorem dictContains_set (d : PyDict) (k k' : String) (v : PyVal) :
    dictContains (dictSet d k v) k' = if k' = k then true else dictContains d k' := by
  by_cases h : k' = k
  · simp [dictContains, h, dictGet_set_self]
  · simp [dictContains, h, dictGet_set_ne d k k' v h]

/-! ### The `json.loads` embedding

CPython's `json` module (default arguments, as `parse_list_field` and
`load_json` call it) accepts the RFC 8259 grammar extended with the
constants `NaN`, `Infinity` and `-Infinity`.  The parser below is fuelled
(fuel ≥ number of parsing steps, which is linearly bounded by the input
length) and is executable, so concrete inputs evaluate by `rfl`. -/

/-- Whitespace the JSON grammar allows between tokens. -/
def isJsonWs (c : Char) : Bool :=
  c == ' ' || c == '\t' || c == '\n' || c == '\r'

/-- Skip inter-token whitespace. -/
def skipJsonWs (cs : List Char) : List Char :=
  cs.dropWhile isJsonWs

/-- Value of a hex digit, if the character is one. -/
def hexVal (c : Char) : Option Nat :=
  if '0' ≤ c ∧ c ≤ '9' then some (c.toNat - 48)
  else if 'a' ≤ c ∧ c ≤ 'f' then some (c.toNat - 87)
  else if 'A' ≤ c ∧ c ≤ 'F' then some (c.toNat - 55)
  else none

/-- Unicode replacement character, standing in for lone surrogates (which a
Lean `Char` cannot hold; no claim exercises them). -/
def replacementChar : Char := Char.ofNat 0xFFFD

/-- Parse the body of a JSON string, positioned just after the opening
quote.  Returns the decoded characters and the input after the closing
quote.  Mirrors CPython's strict scanner: raw control characters and
unknown escapes are errors; `\uXXXX` surrogate pairs are combined. -/
def parseJsonStringChars : Nat → List Char → Option (List Char × List Char)
  | 0, _ => none
  | _ + 1, [] => none
  | fuel + 1, c :: cs =>
    if c = '"' then some ([], cs)
    else if c = '\\' then
      match cs with
      | [] => none
      | e :: cs1 =>
        if e = '"' then (parseJsonStringChars fuel cs1).map (fun p => ('"' :: p.1, p.2))
        else if e = '\\' then (parseJsonStringChars fuel cs1).map (fun p => ('\\' :: p.1, p.2))
        else if e = '/' then (parseJsonStringChars fuel cs1).map (fun p => ('/' :: p.1, p.2))
        else if e = 'b' then (parseJsonStringChars fuel cs1).map (fun p => (Char.ofNat 8 :: p.1, p.2))
        else if e = 'f' then (parseJsonStringChars fuel cs1).map (fun p => (Char.ofNat 12 :: p.1, p.2))
        else if e = 'n' then (parseJsonStringChars fuel cs1).map (fun p => ('\n' :: p.1, p.2))
        else if e = 'r' then (parseJsonStringChars fuel cs1).map (fun p => ('\r' :: p.1, p.2))
        else if e = 't' then (parseJsonStringChars fuel cs1).map (fun p => ('\t' :: p.1, p.2))
        else if e = 'u' then
          match cs1 with
          | a :: b :: c1 :: d :: cs2 =>
            match hexVal a, hexVal b, hexVal c1, hexVal d with
            | some ha, some hb, some hc, some hd =>
              let n := ((ha * 16 + hb) * 16 + hc) * 16 + hd
              if 0xD800 ≤ n ∧ n ≤ 0xDBFF then
                match cs2 with
                | '\\' :: 'u' :: a2 :: b2 :: c2 :: d2 :: cs3 =>
                  match hexVal a2, hexVal b2, hexVal c2, hexVal d2 with
                  | some e1, some e2, some e3, some e4 =>
                    let n2 := ((e1 * 16 + e2) * 16 + e3) * 16 + e4
                    if 0xDC00 ≤ n2 ∧ n2 ≤ 0xDFFF then
                      (parseJsonStringChars fuel cs3).map
                        (fun p => (Char.ofNat (0x10000 + (n - 0xD800) * 0x400 + (n2 - 0xDC00)) :: p.1, p.2))
                    else
                      (parseJsonStringChars fuel cs2).map (fun p => (replacementChar :: p.1, p.2))
                  | _, _, _, _ =>
                    (parseJsonStringChars fuel cs2).map (fun p => (replacementChar :: p.1, p.2))
                | _ =>
                  (parseJsonStringChars fuel cs2).map (fun p => (replacementChar :: p.1, p.2))
              else if 0xDC00 ≤ n ∧ n ≤ 0xDFFF then
                (parseJsonStringChars fuel cs2).map (fun p => (replacementChar :: p.1, p.2))
              else
                (parseJsonStringChars fuel cs2).map (fun p => (Char.ofNat n :: p.1, p.2))
            | _, _, _, _ => none
          | _ => none
        else none
    else if c.toNat < 0x20 then none
    else (parseJsonStringChars fuel cs).map (fun p => (c :: p.1, p.2))

/-- Decimal value of a digit list. -/
def digitsToNat (ds : List Char) : Nat :=
  ds.foldl (fun n c => n * 10 + (c.toNat - 48)) 0

/-- Parse a JSON number token, mirroring CPython's `NUMBER_RE`
(`-?(0|[1-9]\d*)(\.\d+)?([eE][-+]?\d+)?`): an integer part, then an optional
fraction and exponent; a token with a fraction or exponent is a Python
`float`, otherwise an `int`. -/
def parseNumberToken (cs : List Char) : Option (PyVal × List Char) :=
  let signed : Bool × List Char :=
    match cs with
    | '-' :: rest => (true, rest)
    | _ => (false, cs)
  let neg := signed.1
  let cs1 := signed.2
  match cs1 with
  | [] => none
  | c :: rest0 =>
    if c.isDigit then
      let intPart : List Char × List Char :=
        if c = '0' then (['0'], rest0)
        else (cs1.takeWhile Char.isDigit, cs1.dropWhile Char.isDigit)
      let intDigits := intPart.1
      let cs2 := intPart.2
      let fracRes : Option (List Char × List Char) :=
        match cs2 with
        | '.' :: cs3 =>
          let fd := cs3.takeWhile Char.isDigit
          if fd.isEmpty then none else some (fd, cs3.dropWhile Char.isDigit)
        | _ => some ([], cs2)
      match fracRes with
      | none => none
      | some (fracDigits, cs4) =>
        let expRes : Option (List Char × List Char) :=
          match cs4 with
          | e :: cs5 =>
            if e = 'e' ∨ e = 'E' then
              let sgnPart : List Char × List Char :=
                match cs5 with
                | '+' :: r => (['+'], r)
                | '-' :: r => (['-'], r)
                | _ => ([], cs5)
              let ed := sgnPart.2.takeWhile Char.isDigit
              if ed.isEmpty then none
              else some (e :: (sgnPart.1 ++ ed), sgnPart.2.dropWhile Char.isDigit)
            else some ([], cs4)
          | [] => some ([], cs4)
        match expRes with
        | none => none
        | some (expChars, rest) =>
          if fracDigits.isEmpty ∧ expChars.isEmpty then
            let n : Int := Int.ofNat (digitsToNat intDigits)
            some (PyVal.int (if neg then -n else n), rest)
          else
            let raw := (if neg then ['-'] else []) ++ intDigits ++
              (if fracDigits.isEmpty then [] else '.' :: fracDigits) ++ expChars
            some (PyVal.float (String.mk raw), rest)
    else none

mutual

/-- Parse one JSON value (after optional leading whitespace). -/
def parseJsonValue : Nat → List Char → Option (PyVal × List Char)
  | 0, _ => none
  | fuel + 1, cs =>
    match skipJsonWs cs with
    | 'n' :: 'u' :: 'l' :: 'l' :: rest => some (PyVal.none_, rest)
    | 't' :: 'r' :: 'u' :: 'e' :: rest => some (PyVal.bool true, rest)
    | 'f' :: 'a' :: 'l' :: 's' :: 'e' :: rest => some (PyVal.bool false, rest)
    | 'N' :: 'a' :: 'N' :: rest => some (PyVal.float "nan", rest)
    | 'I' :: 'n' :: 'f' :: 'i' :: 'n' :: 'i' :: 't' :: 'y' :: rest =>
      some (PyVal.float "inf", rest)
    | '-' :: 'I' :: 'n' :: 'f' :: 'i' :: 'n' :: 'i' :: 't' :: 'y' :: rest =>
      some (PyVal.float "-inf", rest)
    | '"' :: rest =>
      (parseJsonStringChars (rest.length + 1) rest).map
        (fun p => (PyVal.str (String.mk p.1), p.2))
    | '[' :: rest =>
      (parseJsonArrayItems fuel rest).map (fun p => (PyVal.list p.1, p.2))
    | '{' :: rest =>
      (parseJsonObjectItems fuel rest).map
        (fun p => (PyVal.dict (p.1.foldl (fun d kv => dictSet d kv.1 kv.2) []), p.2))
    | other => parseNumberToken other

/-- Parse array contents after `[`: either an immediate `]`, or one-or-more
comma-separated items. -/
def parseJsonArrayItems : Nat → List Char → Option (List PyVal × List Char)
  | 0, _ => none
  | fuel + 1, cs =>
    match skipJsonWs cs with
    | ']' :: rest => some ([], rest)
    | _ => parseJsonArrayRest fuel cs

/-- Parse a non-empty tail of array items (no trailing comma allowed). -/
def parseJsonArrayRest : Nat → List Char → Option (List PyVal × List Char)
  | 0, _ => none
  | fuel + 1, cs =>
    match parseJsonValue fuel cs with
    | none => none
    | some (v, rest) =>
      match skipJsonWs rest with
      | ',' :: rest2 => (parseJsonArrayRest fuel rest2).map (fun p => (v :: p.1, p.2))
      | ']' :: rest2 => some ([v], rest2)
      | _ => none

/-- Parse object contents after `{`: either an immediate `}`, or
one-or-more `"key": value` members. -/
def parseJsonObjectItems : Nat → List Char → Option (List (String × PyVal) × List Char)
  | 0, _ => none
  | fuel + 1, cs =>
    match skipJsonWs cs with
    | '}' :: rest => some ([], rest)
    | _ => parseJsonObjectRest fuel cs

/-- Parse a non-empty tail of object members (keys must be strings). -/
def parseJsonObjectRest : Nat → List Char → Option (List (String × PyVal) × List Char)
  | 0, _ => none
  | fuel + 1, cs =>
    match skipJsonWs cs with
    | '"' :: rest =>
      match parseJsonStringChars (rest.length + 1) rest with
      | none => none
      | some (kcs, rest1) =>
        match skipJsonWs rest1 with
        | ':' :: rest2 =>
          match parseJsonValue fuel rest2 with
          | none => none
          | some (v, rest3) =>
            match skipJsonWs rest3 with
            | ',' :: rest4 =>
              (parseJsonObjectRest fuel rest4).map
                (fun p => ((String.mk kcs, v) :: p.1, p.2))
            | '}' :: rest4 => some ([(String.mk kcs, v)], rest4)
            | _ => none
        | _ => none
    | _ => none

end

/-- Python `json.loads`: parse a full document, allowing only trailing
whitespace; `none` models a raised exception (`JSONDecodeError`). -/
def json_loads (s : String) : Option PyVal :=
  match parseJsonValue (4 * s.length + 8) s.data with
  | some (v, rest) => if skipJsonWs rest = [] then some v else none
  | none => none

example : json_loads "[\"test_a\", \"test_b\"]" =
    some (PyVal.list [PyVal.str "test_a", PyVal.str "test_b"]) := rfl

example : json_loads "not json" = none := rfl

example : json_loads " \x7b\"a\": [1, -2.5e3, true, null]\x7d " =
    some (PyVal.dict [("a", PyVal.list
      [PyVal.int 1, PyVal.float "-2.5e3", PyVal.bool true, PyVal.none_])]) := rfl

example : json_loads "[1,]" = none := rfl

example : json_loads "\"[nested]\"" = some (PyVal.str "[nested]") := rfl

/-! ### Python stringification

`parse_list_field` applies `str(x)` to every element of the parsed list.
`str` equals `repr` on every Python value except `str` itself.  `repr` of
nested containers quotes strings with `'`; the finer points of Python's
`repr` escaping and float formatting are abbreviated here (no claim
inspects them: every claim that evaluates `pyToStr` does so on `str`
elements, where `str(x) = x` exactly). -/

mutual

/-- Python `repr(x)` for JSON-derived values (escaping abbreviated). -/
def pyToRepr : PyVal → String
  | PyVal.none_ => "None"
  | PyVal.bool true => "True"
  | PyVal.bool false => "False"
  | PyVal.int n => toString n
  | PyVal.float raw => raw
  | PyVal.str s => "'" ++ s ++ "'"
  | PyVal.list l => "[" ++ pyToReprList l ++ "]"
  | PyVal.dict d => "\x7b" ++ pyToReprPairs d ++ "\x7d"

/-- Comma-separated `repr`s of list elements. -/
def pyToReprList : List PyVal → String
  | [] => ""
  | [v] => pyToRepr v
  | v :: rest => pyToRepr v ++ ", " ++ pyToReprList rest

/-- Comma-separated `repr`s of dict entries. -/
def pyToReprPairs : List (String × PyVal) → String
  | [] => ""
  | [(k, v)] => "'" ++ k ++ "': " ++ pyToRepr v
  | (k, v) :: rest => "'" ++ k ++ "': " ++ pyToRepr v ++ ", " ++ pyToReprPairs rest

end

/-- Python `str(x)`: identity on strings, `repr` otherwise. -/
def pyToStr (v : PyVal) : String :=
  match v with
  | PyVal.str s => s
  | v => pyToRepr v

/-! ### `parse_list_field` (cli.py lines 42-53) -/

/-- Embeds `parse_list_field`: a native list maps `str` over its elements; a
string is `json.loads`-parsed and, if that yields a list, treated the same;
everything else (including parse failures and non-list parses) yields `[]`. -/
def parse_list_field (maybe_list_or_str : PyVal) : List String :=
  match maybe_list_or_str with
  | PyVal.list l => l.map pyToStr
  | PyVal.str s =>
    match json_loads s with
    | some (PyVal.list l) => l.map pyToStr
    | _ => []
  | _ => []

example : parse_list_field (PyVal.str "[\"test_a\", \"test_b\"]") = ["test_a", "test_b"] := rfl
example : parse_list_field (PyVal.list [PyVal.str "test_a", PyVal.str "test_b"]) =
    ["test_a", "test_b"] := rfl
example : parse_list_field (PyVal.str "not a json list") = [] := rfl
example : parse_list_field (PyVal.str "\x7b\x7d") = [] := rfl
example : parse_list_field (PyVal.int 3) = [] := rfl
example : parse_list_field (PyVal.str "[1, true]") = ["1", "True"] := rfl

/-! ### `validate_datapoint_schema` (cli.py lines 56-86)

The Python function takes the parsed datapoint dict and the source `Path`;
only `path.name` is used (in error messages), so the embedding takes the
name directly.  The dict is mutated in place (the two list fields are
normalized); the embedding returns the error list together with the updated
dict. -/

/-- The six required datapoint fields, in source order. -/
def required_fields : List String :=
  ["repo", "instance_id", "base_commit", "patch", "FAIL_TO_PASS", "PASS_TO_PASS"]

/-- Error message for a missing required field. -/
def missingMsg (pathName field : String) : String :=
  pathName ++ ": missing required field '" ++ field ++ "'"

/-- Error message for a `repo` without `/`. -/
def repoMsg (pathName : String) : String :=
  pathName ++ ": repo must be in 'owner/repo' format"

/-- Error message for a short `base_commit`. -/
def baseCommitMsg (pathName : String) : String :=
  pathName ++ ": base_commit must be a valid git SHA"

/-- Error message for a patch that does not start with `diff --git`. -/
def patchMsg (pathName : String) : String :=
  pathName ++ ": patch must start with 'diff --git'"

/-- The loop over `required_fields`: one error appended per absent field. -/
def missingFieldErrors (dp : PyDict) (pathName : String) : List String :=
  required_fields.foldl
    (fun errors field =>
      if dictContains dp field then errors
      else errors ++ [missingMsg pathName field])
    []

/-- The `repo` format check: fires when `repo` is present, is a string, and
contains no `/` (Python `"/" not in dp["repo"]`). -/
def repoFormatErrors (dp : PyDict) (pathName : String) : List String :=
  match dictGet dp "repo" with
  | some (PyVal.str s) => if '/' ∈ s.data then [] else [repoMsg pathName]
  | _ => []

/-- The `base_commit` length check (`len < 7`). -/
def baseCommitFormatErrors (dp : PyDict) (pathName : String) : List String :=
  match dictGet dp "base_commit" with
  | some (PyVal.str s) => if s.data.length < 7 then [baseCommitMsg pathName] else []
  | _ => []

/-- Does the character list start with the given pattern? -/
def startsWithChars : List Char → List Char → Bool
  | [], _ => true
  | _ :: _, [] => false
  | p :: ps, c :: cs => p == c && startsWithChars ps cs

/-- Python `s.lstrip()` (whitespace approximated by `Char.isWhitespace`;
the ASCII whitespace all datapoints use is covered exactly). -/
def lstripChars (cs : List Char) : List Char :=
  cs.dropWhile Char.isWhitespace

/-- The `patch` prefix check (`dp["patch"].lstrip().startswith("diff --git")`). -/
def patchFormatErrors (dp : PyDict) (pathName : String) : List String :=
  match dictGet dp "patch" with
  | some (PyVal.str s) =>
    if startsWithChars "diff --git".data (lstripChars s.data) then [] else [patchMsg pathName]
  | _ => []

/-- Embeds `validate_datapoint_schema`: collects all errors (presence of the
six required fields, then the three format checks), then normalizes
`FAIL_TO_PASS` and `PASS_TO_PASS` in place.  Returns the error list and the
updated dict. -/
def validate_datapoint_schema (dp : PyDict) (pathName : String) : List String × PyDict :=
  let errors :=
    missingFieldErrors dp pathName
      ++ repoFormatErrors dp pathName
      ++ baseCommitFormatErrors dp pathName
      ++ patchFormatErrors dp pathName
  let dp1 := dictSet dp "FAIL_TO_PASS"
    (PyVal.list ((parse_list_field (dictGetD dp "FAIL_TO_PASS" (PyVal.list []))).map PyVal.str))
  let dp2 := dictSet dp1 "PASS_TO_PASS"
    (PyVal.list ((parse_list_field (dictGetD dp1 "PASS_TO_PASS" (PyVal.list []))).map PyVal.str))
  (errors, dp2)

/-- A structurally valid example datapoint used by witnesses. -/
def dpGood : PyDict :=
  [("repo", PyVal.str "octo/repo"),
   ("instance_id", PyVal.str "octo__repo-1"),
   ("base_commit", PyVal.str "abcdef0123456789"),
   ("patch", PyVal.str "diff --git a/f.py b/f.py"),
   ("FAIL_TO_PASS", PyVal.list [PyVal.str "test_a"]),
   ("PASS_TO_PASS", PyVal.list [])]

example : (validate_datapoint_schema dpGood "dp.json").1 = [] := rfl
example : (validate_datapoint_schema dpGood "dp.json").2 = dpGood := rfl
example : (validate_datapoint_schema [] "dp.json").1 =
    [missingMsg "dp.json" "repo", missingMsg "dp.json" "instance_id",
     missingMsg "dp.json" "base_commit", missingMsg "dp.json" "patch",
     missingMsg "dp.json" "FAIL_TO_PASS", missingMsg "dp.json" "PASS_TO_PASS"] := rfl

/-! ### `build_predictions` (cli.py lines 89-97) and helpers -/

/-- One prediction record, as written to the predictions file. -/
structure Prediction where
  instance_id : PyVal
  model_patch : PyVal
  model_name_or_path : String

/-- Embeds `build_predictions`: one record per datapoint, in input order,
reading `dp["instance_id"]` and `dp["patch"]`.  A missing key would raise
`KeyError` in Python; the embedding returns `none` in that case. -/
def build_predictions : List PyDict → Option (List Prediction)
  | [] => some []
  | dp :: rest =>
    match dictGet dp "instance_id", dictGet dp "patch" with
    | some iid, some patch =>
      (build_predictions rest).map
        (fun ps => { instance_id := iid, model_patch := patch,
                     model_name_or_path := "golden-patch-validator" } :: ps)
    | _, _ => none

/-- The `instance_ids` comprehension in `main` (cli.py line 309). -/
def instanceIds : List PyDict → Option (List PyVal)
  | [] => some []
  | dp :: rest =>
    match dictGet dp "instance_id" with
    | some iid => (instanceIds rest).map (fun ids => iid :: ids)
    | none => none

/-- Is a float lexeme, as stored by the parser, a representation of zero?
The mantissa (everything before the exponent marker) must contain a digit
and only zero digits; `nan`/`inf` lexemes contain no digits and are
non-zero (truthy), as in Python. -/
def floatLexemeIsZero (raw : String) : Bool :=
  (raw.data.takeWhile (fun c => !(c == 'e' || c == 'E'))).any Char.isDigit
    && (raw.data.takeWhile (fun c => !(c == 'e' || c == 'E'))).all
        (fun c => !c.isDigit || c == '0')

/-- Python truthiness (`bool(x)`) for JSON-derived values: `None`, `False`,
zero numbers, and empty strings/lists/dicts are falsy. -/
def pyTruthy : PyVal → Bool
  | PyVal.none_ => false
  | PyVal.bool b => b
  | PyVal.int n => !(n == 0)
  | PyVal.float raw => !floatLexemeIsZero raw
  | PyVal.str s => !(s == "")
  | PyVal.list l => !l.isEmpty
  | PyVal.dict d => !d.isEmpty

/-- Embeds `detect_dataset_name` (cli.py lines 100-105):
`meta = dp.get("_download_metadata") or ...` keeps a truthy value and
replaces a falsy one with the empty dict; `meta.get("dataset_name")` then
raises `AttributeError` when `meta` is a truthy non-dict (modeled as
`none`); otherwise the result is the looked-up string if it is a non-empty
`str`, else the default. -/
def detect_dataset_name (dp : PyDict) (default : String) : Option String :=
  match dictGet dp "_download_metadata" with
  | some v =>
    if pyTruthy v then
      match v with
      | PyVal.dict meta =>
        match dictGet meta "dataset_name" with
        | some (PyVal.str name) => if name ≠ "" then some name else some default
        | _ => some default
      | _ => none
    else some default
  | none => some default

example : detect_dataset_name [] "d" = some "d" := rfl
example : detect_dataset_name
    [("_download_metadata", PyVal.dict [("dataset_name", PyVal.str "n")])] "d" = some "n" := rfl
example : detect_dataset_name [("_download_metadata", PyVal.none_)] "d" = some "d" := rfl
example : detect_dataset_name [("_download_metadata", PyVal.dict [])] "d" = some "d" := rfl
example : detect_dataset_name [("_download_metadata", PyVal.str "")] "d" = some "d" := rfl
example : detect_dataset_name [("_download_metadata", PyVal.str "x")] "d" = none := rfl
example : detect_dataset_name [("_download_metadata", PyVal.int 5)] "d" = none := rfl
example : detect_dataset_name [("_download_metadata", PyVal.int 0)] "d" = some "d" := rfl

/-! ### `run_harness` (cli.py lines 108-179) and the orchestrator

`run_harness` performs I/O: it creates log directories, spawns the harness
subprocess, and echoes output.  Its observable result — the integer it
returns to `main` — depends only on what the subprocess did: a
`TimeoutExpired` is caught and mapped to the fixed code `2`; otherwise the
child's `returncode` is returned unchanged.  The subprocess outcome is an
explicit `HarnessEvent` input. -/

/-- What the harness subprocess did: exceeded the outer timeout, or
completed with an exit code. -/
inductive HarnessEvent where
  | timeout
  | completed (returncode : Int)

/-- Configuration struct (cli.py lines 24-29).  The source field
`namespace` is a Lean keyword and is called `nspace` here. -/
structure ValidatorConfig where
  max_workers : Int := 1
  timeout_seconds : Int := 1800
  nspace : Option String := none
  dataset_name_default : String := "SWE-bench/SWE-bench"

/-- Embeds `run_harness`: on `TimeoutExpired` return the fixed code 2
without raising; otherwise return the child's exit code.  The directory
creation, command construction and log echoing are I/O with no effect on
the returned value. -/
def run_harness (predictions_path : String) (instance_ids : List PyVal)
    (cfg : ValidatorConfig) (run_id : String) (dataset_name : String)
    (root : String) (ev : HarnessEvent) : Int :=
  match ev with
  | HarnessEvent.timeout => 2
  | HarnessEvent.completed rc => rc

/-- Result of `json.load`ing one file: a parsed dict, or a raised exception
caught by `main` and turned into an `invalid JSON` structural error. -/
inductive LoadOutcome where
  | loadError (msg : String)
  | loaded (dp : PyDict)

/-- The environment `main` runs against: its CLI inputs plus the answers the
filesystem and subprocess give.  `fileExists` answers `Path.exists` on
resolved paths, `allFiles` is what `find_all_datapoints` returns, `load`
is the outcome of `load_json` per path, `harness` what the subprocess did. -/
structure Env where
  root : String
  dataDirExists : Bool
  files : List String
  fileExists : String → Bool
  allFiles : List String
  load : String → LoadOutcome
  maxWorkers : Int
  timeoutSeconds : Int
  nspace : Option String
  dryRun : Bool
  harness : HarnessEvent

/-- Observable outcome of a run of `main`: the exit code, the contents of
the predictions file if one was written, whether the validation loop was
reached, and whether the harness was invoked.  `crashed` stands for an
uncaught exception (never reached from `main`'s actual flow). -/
inductive RunResult where
  | exited (code : Int) (predsWritten : Option (List Prediction))
      (validated : Bool) (harnessInvoked : Bool)
  | crashed

/-- Python `Path(f).name`: the part after the last `/`. -/
def baseName (p : String) : String :=
  String.mk (p.data.foldl (fun acc c => if c == '/' then [] else acc ++ [c]) [])

example : baseName "/root/data_points/dp.json" = "dp.json" := rfl
example : baseName "dp.json" = "dp.json" := rfl

/-- Leading `/` test (Python `Path.is_absolute` for POSIX paths). -/
def isAbsolutePath (f : String) : Bool :=
  match f.data with
  | '/' :: _ => true
  | _ => false

/-- First path component (Python `Path(f).parts[0]` for relative paths). -/
def firstPart (f : String) : String :=
  String.mk (f.data.takeWhile (fun c => !(c == '/')))

/-- Path resolution for one CLI argument (cli.py lines 242-250): absolute
paths stay; `data_points/...`-relative paths resolve against the project
root; bare names resolve against the data directory. -/
def resolveTarget (root f : String) : String :=
  if isAbsolutePath f then f
  else if firstPart f = "data_points" then root ++ "/" ++ f
  else root ++ "/data_points/" ++ f

/-- The resolution loop (cli.py lines 241-254): resolve each named file and
fail (exit 1, modeled as `none`) at the first one that does not exist. -/
def resolveTargets (root : String) (fileExists : String → Bool) :
    List String → Option (List String)
  | [] => some []
  | f :: rest =>
    let p := resolveTarget root f
    if fileExists p then (resolveTargets root fileExists rest).map (fun ts => p :: ts)
    else none

/-- Target-file resolution for a whole run (cli.py lines 233-256): `none`
models exiting 1 (data directory absent, or a named file missing); with no
explicit arguments all files in the data directory are used. -/
def targetsOf (env : Env) : Option (List String) :=
  if env.dataDirExists then
    if env.files = [] then some env.allFiles
    else resolveTargets env.root env.fileExists env.files
  else none

/-- One iteration of the load-and-validate loop (cli.py lines 265-276):
a load failure appends an `invalid JSON` error; a validation failure
appends its errors; otherwise the (normalized) datapoint is kept. -/
def collectStep (load : String → LoadOutcome) (acc : List PyDict × List String)
    (path : String) : List PyDict × List String :=
  match load path with
  | LoadOutcome.loadError msg =>
    (acc.1, acc.2 ++ [baseName path ++ ": invalid JSON - " ++ msg])
  | LoadOutcome.loaded dp =>
    if (validate_datapoint_schema dp (baseName path)).1 = []
    then (acc.1 ++ [(validate_datapoint_schema dp (baseName path)).2], acc.2)
    else (acc.1, acc.2 ++ (validate_datapoint_schema dp (baseName path)).1)

/-- The load-and-validate loop: accumulated valid datapoints and
structural errors. -/
def collect (load : String → LoadOutcome) (paths : List String) :
    List PyDict × List String :=
  paths.foldl (collectStep load) ([], [])

/-- The contribution of one path to the valid-datapoint list: its
normalized datapoint when loading succeeded and validation returned no
errors, nothing otherwise. -/
def validOutputOf (load : String → LoadOutcome) (path : String) : Option PyDict :=
  match load path with
  | LoadOutcome.loaded dp =>
    if (validate_datapoint_schema dp (baseName path)).1 = []
    then some (validate_datapoint_schema dp (baseName path)).2 else none
  | LoadOutcome.loadError _ => none

/-- Dataset-name selection (cli.py lines 304-307): the first datapoint's
detected name, else the default; `none` models the `AttributeError` that
`detect_dataset_name` can raise. -/
def datasetNameOf (dps : List PyDict) (dflt : String) : Option String :=
  match dps with
  | [] => some dflt
  | dp :: _ => detect_dataset_name dp dflt

/-- The `ValidatorConfig` built from CLI flags (cli.py lines 299-303). -/
def cfgOf (env : Env) : ValidatorConfig :=
  { max_workers := env.maxWorkers, timeout_seconds := env.timeoutSeconds,
    nspace := env.nspace }

/-- The predictions-file path (cli.py lines 292-294). -/
def predictions_path_for (root run_id : String) : String :=
  root ++ "/.validator_work/predictions_" ++ run_id ++ ".json"

/-- Embeds the body of `main` (cli.py lines 233-322), the code that runs
once click has accepted the arguments: resolve targets (exit 1 on a missing
file or data directory), exit 0 on no targets, load and validate
everything, exit 1 if any structural error, exit 0 before building
predictions in dry-run mode, else build and persist predictions, detect the
dataset name (an `AttributeError` there crashes the run after the
predictions file is written but before the harness starts), invoke the
harness once, and map its code (non-zero → exit 2, zero → exit 0).  The
click `Path(exists=True)` argument pre-check (cli.py lines 183-187) happens
before this body; `processRun` below adds it. -/
def mainRun (env : Env) : RunResult :=
  match targetsOf env with
  | none => RunResult.exited 1 none false false
  | some targets =>
    if targets = [] then RunResult.exited 0 none false false
    else if (collect env.load targets).2 = [] then
      if env.dryRun then RunResult.exited 0 none true false
      else
        match build_predictions (collect env.load targets).1 with
        | none => RunResult.crashed
        | some predictions =>
          match datasetNameOf (collect env.load targets).1 (cfgOf env).dataset_name_default with
          | none => RunResult.crashed
          | some dataset_name =>
            match instanceIds (collect env.load targets).1 with
            | none => RunResult.crashed
            | some ids =>
              if run_harness (predictions_path_for env.root "validate-gold") ids (cfgOf env)
                  "validate-gold" dataset_name env.root env.harness ≠ 0 then
                RunResult.exited 2 (some predictions) true true
              else RunResult.exited 0 (some predictions) true true
    else RunResult.exited 1 none true false

/-- The whole process: click's argument parsing checks every raw `files`
argument with `type=click.Path(exists=True)` against the working directory
(cli.py lines 183-187) and aborts with a usage error — exit code 2 —
before `main`'s body runs if any is missing; `rawExists` answers that
raw-path existence question.  Only when every named argument exists does
the body (`mainRun`) run. -/
def processRun (rawExists : String → Bool) (env : Env) : RunResult :=
  if env.files.all rawExists then mainRun env
  else RunResult.exited 2 none false false

/-! ### Helper lemmas -/

theorem string_append_cancel_left {p a b : String} (h : p ++ a = p ++ b) : a = b := by
  apply String.ext
  have hd := congrArg String.data h
  simp only [String.data_append] at hd
  exact List.append_cancel_left hd

theorem string_append_cancel_right {a b s : String} (h : a ++ s = b ++ s) : a = b := by
  apply String.ext
  have hd := congrArg String.data h
  simp only [String.data_append] at hd
  exact List.append_cancel_right hd

theorem missingMsg_inj (path : String) : Function.Injective (missingMsg path) := by
  intro f g h
  unfold missingMsg at h
  exact string_append_cancel_left (string_append_cancel_right h)

theorem missingMsg_ne_append (path f B : String) (hB : B.data[2]? ≠ some 'm') :
    missingMsg path f ≠ path ++ B := by
  intro h
  have hd := congrArg String.data h
  simp only [missingMsg, String.data_append, List.append_assoc] at hd
  have h2 := List.append_cancel_left hd
  apply hB
  rw [← h2, List.getElem?_append_left (by decide)]
  rfl

theorem missingMsg_ne_repoMsg (path f : String) : missingMsg path f ≠ repoMsg path := by
  simpa [repoMsg] using missingMsg_ne_append path f ": repo must be in 'owner/repo' format" (by decide)

theorem missingMsg_ne_baseCommitMsg (path f : String) :
    missingMsg path f ≠ baseCommitMsg path := by
  simpa [baseCommitMsg] using
    missingMsg_ne_append path f ": base_commit must be a valid git SHA" (by decide)

theorem missingMsg_ne_patchMsg (path f : String) : missingMsg path f ≠ patchMsg path := by
  simpa [patchMsg] using
    missingMsg_ne_append path f ": patch must start with 'diff --git'" (by decide)

theorem foldl_missing_go (dp : PyDict) (path : String) :
    ∀ (l : List String) (init : List String),
      l.foldl (fun errors field =>
          if dictContains dp field then errors else errors ++ [missingMsg path field]) init
        = init ++ (l.filter (fun f => !(dictContains dp f))).map (missingMsg path) := by
  intro l
  induction l with
  | nil => intro init; simp
  | cons f fs ih =>
    intro init
    rw [List.foldl_cons, ih]
    cases hd : dictContains dp f <;> simp [hd]

theorem missingFieldErrors_eq (dp : PyDict) (path : String) :
    missingFieldErrors dp path
      = (required_fields.filter (fun f => !(dictContains dp f))).map (missingMsg path) := by
  simpa using foldl_missing_go dp path required_fields []

theorem count_missingFieldErrors (dp : PyDict) (path f : String) (hf : f ∈ required_fields) :
    (missingFieldErrors dp path).count (missingMsg path f)
      = if dictContains dp f then 0 else 1 := by
  rw [missingFieldErrors_eq,
    List.count_map_of_injective _ (missingMsg path) (missingMsg_inj path) f]
  cases hd : dictContains dp f
  · have hp : (fun g => !(dictContains dp g)) f = true := by simp [hd]
    have h1 : List.count f (List.filter (fun g => !(dictContains dp g)) required_fields)
        = List.count f required_fields := List.count_filter hp
    rw [h1, List.count_eq_one_of_mem (by decide : required_fields.Nodup) hf]
    simp
  · have hnm : f ∉ required_fields.filter (fun g => !(dictContains dp g)) := by
      simp [List.mem_filter, hd]
    simp [List.count_eq_zero_of_not_mem hnm]

theorem count_repoFormatErrors (dp : PyDict) (path f : String) :
    (repoFormatErrors dp path).count (missingMsg path f) = 0 := by
  unfold repoFormatErrors
  cases hg : dictGet dp "repo" with
  | none => simp
  | some v =>
    cases v with
    | str s =>
      dsimp only
      by_cases hc : '/' ∈ s.data
      · rw [if_pos hc]
        simp
      · rw [if_neg hc, List.count_singleton',
          if_neg (Ne.symm (missingMsg_ne_repoMsg path f))]
    | none_ => simp
    | bool b => simp
    | int n => simp
    | float r => simp
    | list l => simp
    | dict d => simp

theorem count_baseCommitFormatErrors (dp : PyDict) (path f : String) :
    (baseCommitFormatErrors dp path).count (missingMsg path f) = 0 := by
  unfold baseCommitFormatErrors
  cases hg : dictGet dp "base_commit" with
  | none => simp
  | some v =>
    cases v with
    | str s =>
      dsimp only
      by_cases hc : s.data.length < 7
      · rw [if_pos hc, List.count_singleton',
          if_neg (Ne.symm (missingMsg_ne_baseCommitMsg path f))]
      · rw [if_neg hc]
        simp
    | none_ => simp
    | bool b => simp
    | int n => simp
    | float r => simp
    | list l => simp
    | dict d => simp

theorem count_patchFormatErrors (dp : PyDict) (path f : String) :
    (patchFormatErrors dp path).count (missingMsg path f) = 0 := by
  unfold patchFormatErrors
  cases hg : dictGet dp "patch" with
  | none => simp
  | some v =>
    cases v with
    | str s =>
      dsimp only
      cases hc : startsWithChars "diff --git".data (lstripChars s.data)
      · simp only [Bool.false_eq_true, if_false, List.count_singleton']
        rw [if_neg (Ne.symm (missingMsg_ne_patchMsg path f))]
      · simp
    | none_ => simp
    | bool b => simp
    | int n => simp
    | float r => simp
    | list l => simp
    | dict d => simp

theorem count_validate_missing (dp : PyDict) (path f : String) (hf : f ∈ required_fields) :
    ((validate_datapoint_schema dp path).1).count (missingMsg path f)
      = if dictContains dp f then 0 else 1 := by
  show (missingFieldErrors dp path ++ repoFormatErrors dp path
      ++ baseCommitFormatErrors dp path ++ patchFormatErrors dp path).count
        (missingMsg path f) = _
  rw [List.count_append, List.count_append, List.count_append,
    count_missingFieldErrors dp path f hf, count_repoFormatErrors dp path f,
    count_baseCommitFormatErrors dp path f, count_patchFormatErrors dp path f]
  simp

theorem collect_go (load : String → LoadOutcome) :
    ∀ (paths : List String) (acc : List PyDict × List String),
      (paths.foldl (collectStep load) acc).1
        = acc.1 ++ paths.filterMap (validOutputOf load) := by
  intro paths
  induction paths with
  | nil => intro acc; simp
  | cons p ps ih =>
    intro acc
    rw [List.foldl_cons, ih]
    cases hl : load p with
    | loadError msg => simp [collectStep, validOutputOf, hl]
    | loaded dp =>
      by_cases hv : (validate_datapoint_schema dp (baseName p)).1 = []
      · simp [collectStep, validOutputOf, hl, hv]
      · simp [collectStep, validOutputOf, hl, hv]

theorem collect_fst (load : String → LoadOutcome) (paths : List String) :
    (collect load paths).1 = paths.filterMap (validOutputOf load) := by
  simpa [collect] using collect_go load paths ([], [])

theorem resolveTargets_eq_none (root : String) (fileExists : String → Bool) :
    ∀ (files : List String) (f : String), f ∈ files →
      fileExists (resolveTarget root f) = false →
      resolveTargets root fileExists files = none := by
  intro files
  induction files with
  | nil => intro f hf; cases hf
  | cons g gs ih =>
    intro f hf hmiss
    rcases List.mem_cons.mp hf with h | h
    · subst h
      simp [resolveTargets, hmiss]
    · unfold resolveTargets
      by_cases hg : fileExists (resolveTarget root g)
      · simp [hg, ih f h hmiss]
      · simp [hg]

theorem mem_collect_valid (load : String → LoadOutcome) (paths : List String) (d : PyDict)
    (hd : d ∈ (collect load paths).1) :
    ∃ p dp0, p ∈ paths ∧ load p = LoadOutcome.loaded dp0
      ∧ (validate_datapoint_schema dp0 (baseName p)).1 = []
      ∧ (validate_datapoint_schema dp0 (baseName p)).2 = d := by
  rw [collect_fst] at hd
  obtain ⟨p, hp, hvo⟩ := List.mem_filterMap.mp hd
  cases hl : load p with
  | loadError m =>
    unfold validOutputOf at hvo
    rw [hl] at hvo
    cases hvo
  | loaded dp0 =>
    unfold validOutputOf at hvo
    rw [hl] at hvo
    dsimp only at hvo
    by_cases hval : (validate_datapoint_schema dp0 (baseName p)).1 = []
    · rw [if_pos hval] at hvo
      exact ⟨p, dp0, hp, hl, hval, Option.some.inj hvo⟩
    · rw [if_neg hval] at hvo
      cases hvo

theorem dictContains_set_value_irrelevant (d : PyDict) (k f : String) (v w : PyVal) :
    dictContains (dictSet d k v) f = dictContains (dictSet d k w) f := by
  rw [dictContains_set, dictContains_set]

theorem validate_errors_set_irrelevant (dp : PyDict) (path k : String)
    (hk : k = "FAIL_TO_PASS" ∨ k = "PASS_TO_PASS") (v w : PyVal) :
    (validate_datapoint_schema (dictSet dp k v) path).1
      = (validate_datapoint_schema (dictSet dp k w) path).1 := by
  have hrepo : "repo" ≠ k := by rcases hk with h | h <;> subst h <;> decide
  have hbase : "base_commit" ≠ k := by rcases hk with h | h <;> subst h <;> decide
  have hpatch : "patch" ≠ k := by rcases hk with h | h <;> subst h <;> decide
  have h1 : missingFieldErrors (dictSet dp k v) path
      = missingFieldErrors (dictSet dp k w) path := by
    rw [missingFieldErrors_eq, missingFieldErrors_eq]
    congr 1
    apply List.filter_congr
    intro f hf
    rw [dictContains_set_value_irrelevant]
  have h2 : repoFormatErrors (dictSet dp k v) path
      = repoFormatErrors (dictSet dp k w) path := by
    unfold repoFormatErrors
    rw [dictGet_set_ne dp k "repo" v hrepo, dictGet_set_ne dp k "repo" w hrepo]
  have h3 : baseCommitFormatErrors (dictSet dp k v) path
      = baseCommitFormatErrors (dictSet dp k w) path := by
    unfold baseCommitFormatErrors
    rw [dictGet_set_ne dp k "base_commit" v hbase, dictGet_set_ne dp k "base_commit" w hbase]
  have h4 : patchFormatErrors (dictSet dp k v) path
      = patchFormatErrors (dictSet dp k w) path := by
    unfold patchFormatErrors
    rw [dictGet_set_ne dp k "patch" v hpatch, dictGet_set_ne dp k "patch" w hpatch]
  show missingFieldErrors (dictSet dp k v) path ++ repoFormatErrors (dictSet dp k v) path
      ++ baseCommitFormatErrors (dictSet dp k v) path ++ patchFormatErrors (dictSet dp k v) path
    = missingFieldErrors (dictSet dp k w) path ++ repoFormatErrors (dictSet dp k w) path
      ++ baseCommitFormatErrors (dictSet dp k w) path ++ patchFormatErrors (dictSet dp k w) path
  rw [h1, h2, h3, h4]

/-! ### Claims -/

/-- Claim C3: for every datapoint whose `repo` value (a string) does not
contain the character `/`, `validate_datapoint_schema` reports the repo
format error, regardless of the validity of any other field (`dp` is
otherwise arbitrary here). -/
theorem C3_repo_without_slash_reports_error (dp : PyDict) (path s : String)
    (hrepo : dictGet dp "repo" = some (PyVal.str s)) (hs : '/' ∉ s.data) :
    repoMsg path ∈ (validate_datapoint_schema dp path).1 := by
  have h : repoFormatErrors dp path = [repoMsg path] := by
    unfold repoFormatErrors
    rw [hrepo]
    exact if_neg hs
  show repoMsg path ∈ missingFieldErrors dp path ++ repoFormatErrors dp path
      ++ baseCommitFormatErrors dp path ++ patchFormatErrors dp path
  simp [h]

/-- Witness for C3 at a concrete datapoint whose repo lacks `/` and whose
other fields are missing or invalid. -/
theorem C3_witness :
    repoMsg "bad.json" ∈
      (validate_datapoint_schema [("repo", PyVal.str "norepo")] "bad.json").1 :=
  C3_repo_without_slash_reports_error [("repo", PyVal.str "norepo")] "bad.json" "norepo"
    rfl (by decide)

/-- Claim C5: the documented two-element example normalizes identically
whether the field is supplied as a JSON-encoded string or as the native
list, and in general a string that parses to a JSON list normalizes to the
same result as the native list itself. -/
theorem C5_string_form_equals_native_form :
    parse_list_field (PyVal.str "[\"test_a\", \"test_b\"]")
        = parse_list_field (PyVal.list [PyVal.str "test_a", PyVal.str "test_b"])
      ∧ parse_list_field (PyVal.str "[\"test_a\", \"test_b\"]") = ["test_a", "test_b"]
      ∧ ∀ (s : String) (l : List PyVal), json_loads s = some (PyVal.list l) →
          parse_list_field (PyVal.str s) = parse_list_field (PyVal.list l) := by
  refine ⟨rfl, rfl, ?_⟩
  intro s l h
  unfold parse_list_field
  dsimp only
  rw [h]

/-- Witness for C5's general normalization statement at a concrete string. -/
theorem C5_witness :
    parse_list_field (PyVal.str "[\"x\"]") = parse_list_field (PyVal.list [PyVal.str "x"]) :=
  C5_string_form_equals_native_form.2.2 "[\"x\"]" [PyVal.str "x"] rfl

/-- Claim C6: for every datapoint and required field, the validator reports
exactly one missing-field error when the field is absent and none when it
is present (no short-circuiting); a datapoint with a missing field
validates with a non-empty error list; and the orchestrator's valid list —
the input to the predictions builder — consists exactly of the datapoints
whose validation produced no errors. -/
theorem C6_missing_fields_one_error_each (dp : PyDict) (path f : String)
    (hf : f ∈ required_fields) :
    ((validate_datapoint_schema dp path).1).count (missingMsg path f)
        = (if dictContains dp f then 0 else 1)
      ∧ (dictContains dp f = false → (validate_datapoint_schema dp path).1 ≠ [])
      ∧ ∀ (load : String → LoadOutcome) (paths : List String),
          (collect load paths).1 = paths.filterMap (validOutputOf load) := by
  refine ⟨count_validate_missing dp path f hf, ?_, fun load paths => collect_fst load paths⟩
  intro hd he
  have hcount := count_validate_missing dp path f hf
  rw [he, hd] at hcount
  simp at hcount

/-- Witness for C6 at the empty datapoint: exactly one error for the
missing `repo` field. -/
theorem C6_witness :
    ((validate_datapoint_schema [] "w.json").1).count (missingMsg "w.json" "repo") = 1 := by
  have h := C6_missing_fields_one_error_each [] "w.json" "repo" (by decide)
  simpa [dictContains, dictGet] using h.1

/-- Claim C7: for valid inputs (both accessed keys present, as every
already-validated datapoint guarantees), `build_predictions` returns one
record per datapoint in input order, mapping `patch` to `model_patch`,
carrying `instance_id`, and tagging every record with the fixed
`model_name_or_path`; as a Lean function it is pure (no I/O). -/
theorem C7_build_predictions_maps_in_order (dps : List PyDict)
    (h : ∀ dp ∈ dps, (dictGet dp "instance_id").isSome ∧ (dictGet dp "patch").isSome) :
    build_predictions dps = some (dps.map (fun dp =>
      { instance_id := (dictGet dp "instance_id").getD PyVal.none_,
        model_patch := (dictGet dp "patch").getD PyVal.none_,
        model_name_or_path := "golden-patch-validator" })) := by
  induction dps with
  | nil => rfl
  | cons dp rest ih =>
    obtain ⟨h1, h2⟩ := h dp (List.mem_cons_self dp rest)
    obtain ⟨iid, hiid⟩ := Option.isSome_iff_exists.mp h1
    obtain ⟨pt, hpt⟩ := Option.isSome_iff_exists.mp h2
    have hrest := ih (fun d hd => h d (List.mem_cons_of_mem dp hd))
    unfold build_predictions
    rw [hiid, hpt, hrest]
    simp [hiid, hpt]

/-- Witness for C7: one concrete valid datapoint produces exactly its
prediction record. -/
theorem C7_witness :
    build_predictions [dpGood] = some
      [{ instance_id := PyVal.str "octo__repo-1",
         model_patch := PyVal.str "diff --git a/f.py b/f.py",
         model_name_or_path := "golden-patch-validator" }] :=
  (C7_build_predictions_maps_in_order [dpGood] (by decide)).trans rfl

/-- Claim C9: a `FAIL_TO_PASS`/`PASS_TO_PASS` field supplied as a string
holding malformed JSON, or JSON that is not a list, normalizes to the empty
sequence (the parse failure is swallowed, not raised — `json_loads`'s
`none` models the caught exception), and the value stored under either list
key contributes nothing to the validation error list. -/
theorem C9_malformed_list_field_degrades_to_empty (s : String)
    (h : ∀ l : List PyVal, json_loads s ≠ some (PyVal.list l)) :
    parse_list_field (PyVal.str s) = []
      ∧ ∀ (dp : PyDict) (path : String) (v w : PyVal),
          (validate_datapoint_schema (dictSet dp "FAIL_TO_PASS" v) path).1
              = (validate_datapoint_schema (dictSet dp "FAIL_TO_PASS" w) path).1
            ∧ (validate_datapoint_schema (dictSet dp "PASS_TO_PASS" v) path).1
              = (validate_datapoint_schema (dictSet dp "PASS_TO_PASS" w) path).1 := by
  constructor
  · unfold parse_list_field
    dsimp only
    cases hj : json_loads s with
    | none => rfl
    | some v =>
      cases v with
      | list l => exact absurd hj (h l)
      | none_ => rfl
      | bool b => rfl
      | int n => rfl
      | float r => rfl
      | str t => rfl
      | dict d => rfl
  · intro dp path v w
    exact ⟨validate_errors_set_irrelevant dp path "FAIL_TO_PASS" (Or.inl rfl) v w,
      validate_errors_set_irrelevant dp path "PASS_TO_PASS" (Or.inr rfl) v w⟩

/-- Witness for C9 at a concrete malformed string. -/
theorem C9_witness : parse_list_field (PyVal.str "oops") = [] := by
  have h0 : json_loads "oops" = none := rfl
  exact (C9_malformed_list_field_degrades_to_empty "oops"
    (fun l hl => by rw [h0] at hl; exact Option.noConfusion hl)).1

/-- Claim C10: `validate_datapoint_schema` (a total Lean function — the
Python original raises on no input dict) changes only the
`FAIL_TO_PASS`/`PASS_TO_PASS` keys: every other key keeps its original
binding, and after the call both list keys are present and hold lists of
strings, whatever the input held. -/
theorem C10_validate_mutates_only_list_fields (dp : PyDict) (path : String) :
    (∀ k : String, k ≠ "FAIL_TO_PASS" → k ≠ "PASS_TO_PASS" →
        dictGet (validate_datapoint_schema dp path).2 k = dictGet dp k)
      ∧ (∃ l : List String,
          dictGet (validate_datapoint_schema dp path).2 "FAIL_TO_PASS"
            = some (PyVal.list (l.map PyVal.str)))
      ∧ (∃ l : List String,
          dictGet (validate_datapoint_schema dp path).2 "PASS_TO_PASS"
            = some (PyVal.list (l.map PyVal.str))) := by
  refine ⟨?_, ?_, ?_⟩
  · intro k h1 h2
    show dictGet (dictSet (dictSet dp "FAIL_TO_PASS" _) "PASS_TO_PASS" _) k = dictGet dp k
    rw [dictGet_set_ne _ _ _ _ h2, dictGet_set_ne _ _ _ _ h1]
  · refine ⟨parse_list_field (dictGetD dp "FAIL_TO_PASS" (PyVal.list [])), ?_⟩
    show dictGet (dictSet (dictSet dp "FAIL_TO_PASS" _) "PASS_TO_PASS" _) "FAIL_TO_PASS" = _
    rw [dictGet_set_ne _ _ _ _ (by decide), dictGet_set_self]
  · refine ⟨parse_list_field (dictGetD (dictSet dp "FAIL_TO_PASS"
      (PyVal.list ((parse_list_field (dictGetD dp "FAIL_TO_PASS" (PyVal.list []))).map
        PyVal.str))) "PASS_TO_PASS" (PyVal.list [])), ?_⟩
    show dictGet (dictSet (dictSet dp "FAIL_TO_PASS" _) "PASS_TO_PASS" _) "PASS_TO_PASS" = _
    rw [dictGet_set_self]

/-- Witness for C10 at a concrete datapoint: the unrelated `repo` key is
untouched. -/
theorem C10_witness :
    dictGet (validate_datapoint_schema [("repo", PyVal.str "a/b")] "f.json").2 "repo"
      = some (PyVal.str "a/b") := by
  have h := C10_validate_mutates_only_list_fields [("repo", PyVal.str "a/b")] "f.json"
  rw [h.1 "repo" (by decide) (by decide)]
  rfl

/-- Claim C1: if target resolution succeeded with a non-empty list, then
(a) any structural error at all — schema errors or a JSON load failure —
makes the run exit 1 with no predictions file written and no harness
invocation; and (b) whenever a run does write a predictions file, there
were no structural errors, the file holds exactly the predictions built
from the collected datapoints, and every collected datapoint is the
normalization of a loaded datapoint on which `validate_datapoint_schema`
returned the empty error list. -/
theorem C1_only_fully_valid_datapoints_reach_predictions (env : Env) (ts : List String)
    (hts : targetsOf env = some ts) (hne : ts ≠ []) :
    ((collect env.load ts).2 ≠ [] →
        mainRun env = RunResult.exited 1 none true false)
      ∧ (∀ (code : Int) (preds : List Prediction) (v hI : Bool),
          mainRun env = RunResult.exited code (some preds) v hI →
            (collect env.load ts).2 = []
              ∧ build_predictions (collect env.load ts).1 = some preds
              ∧ ∀ d ∈ (collect env.load ts).1,
                  ∃ p dp0, p ∈ ts ∧ env.load p = LoadOutcome.loaded dp0
                    ∧ (validate_datapoint_schema dp0 (baseName p)).1 = []
                    ∧ (validate_datapoint_schema dp0 (baseName p)).2 = d) := by
  constructor
  · intro herr
    simp only [mainRun, hts]
    rw [if_neg hne, if_neg herr]
  · intro code preds v hI hrun
    by_cases herr : (collect env.load ts).2 = []
    · simp only [mainRun, hts] at hrun
      rw [if_neg hne, if_pos herr] at hrun
      by_cases hdry : env.dryRun
      · rw [if_pos hdry] at hrun
        exact absurd (RunResult.exited.inj hrun).2.1 (by simp)
      · rw [if_neg hdry] at hrun
        cases hbp : build_predictions (collect env.load ts).1 with
        | none =>
          rw [hbp] at hrun
          dsimp only at hrun
          exact RunResult.noConfusion hrun
        | some predictions =>
          rw [hbp] at hrun
          dsimp only at hrun
          cases hdn : datasetNameOf (collect env.load ts).1 (cfgOf env).dataset_name_default with
          | none =>
            rw [hdn] at hrun
            dsimp only at hrun
            exact RunResult.noConfusion hrun
          | some dn =>
            rw [hdn] at hrun
            dsimp only at hrun
            cases hiid : instanceIds (collect env.load ts).1 with
            | none =>
              rw [hiid] at hrun
              dsimp only at hrun
              exact RunResult.noConfusion hrun
            | some ids =>
              rw [hiid] at hrun
              dsimp only at hrun
              have hpred : predictions = preds := by
                split at hrun
                · exact Option.some.inj (RunResult.exited.inj hrun).2.1
                · exact Option.some.inj (RunResult.exited.inj hrun).2.1
              exact ⟨herr, by rw [hpred], fun d hd => mem_collect_valid env.load ts d hd⟩
    · have h1 : mainRun env = RunResult.exited 1 none true false := by
        simp only [mainRun, hts]
        rw [if_neg hne, if_neg herr]
      rw [h1] at hrun
      exact absurd (RunResult.exited.inj hrun).2.1 (by simp)

/-- Environment for the C1 witness: one file that loads as the empty
datapoint (all six required fields missing) under a run that would
otherwise invoke the harness. -/
def envC1 : Env :=
  { root := "/proj", dataDirExists := true, files := [],
    fileExists := fun _ => true, allFiles := ["/proj/data_points/bad.json"],
    load := fun _ => LoadOutcome.loaded [], maxWorkers := 1, timeoutSeconds := 1800,
    nspace := none, dryRun := false, harness := HarnessEvent.completed 0 }

/-- Witness for C1: the structurally invalid datapoint forces exit 1 with
no predictions and no harness call. -/
theorem C1_witness : mainRun envC1 = RunResult.exited 1 none true false :=
  (C1_only_fully_valid_datapoints_reach_predictions envC1 ["/proj/data_points/bad.json"]
    rfl (by decide)).1 (by decide)

/-- Claim C2: `run_harness` returns the fixed code 2 on a subprocess
timeout (the exception is caught, not propagated) and the child's exit code
unchanged otherwise; and whenever a run reaches the harness invocation — in
particular dataset-name detection (cli.py lines 304-307) returned rather
than raised — `main` maps the value `run_harness` returned: non-zero makes
the process exit 2, zero makes it exit 0. -/
theorem C2_timeout_gives_2_and_exit_mapping :
    (∀ (pp : String) (ids : List PyVal) (cfg : ValidatorConfig) (rid dn root : String),
        run_harness pp ids cfg rid dn root HarnessEvent.timeout = 2)
      ∧ (∀ (pp : String) (ids : List PyVal) (cfg : ValidatorConfig) (rid dn root : String)
          (rc : Int), run_harness pp ids cfg rid dn root (HarnessEvent.completed rc) = rc)
      ∧ ∀ (env : Env) (ts : List String) (preds : List Prediction) (dn : String)
          (ids : List PyVal),
          targetsOf env = some ts → ts ≠ [] → (collect env.load ts).2 = [] →
          env.dryRun = false →
          build_predictions (collect env.load ts).1 = some preds →
          datasetNameOf (collect env.load ts).1 (cfgOf env).dataset_name_default = some dn →
          instanceIds (collect env.load ts).1 = some ids →
          mainRun env = RunResult.exited
            (if run_harness (predictions_path_for env.root "validate-gold") ids (cfgOf env)
                "validate-gold" dn env.root env.harness ≠ 0 then 2 else 0)
            (some preds) true true := by
  refine ⟨fun _ _ _ _ _ _ => rfl, fun _ _ _ _ _ _ _ => rfl, ?_⟩
  intro env ts preds dn ids hts hne herr hdry hbp hdn hiid
  simp only [mainRun, hts]
  rw [if_neg hne, if_pos herr, hdry]
  simp only [Bool.false_eq_true, if_false]
  rw [hbp, hdn, hiid]
  dsimp only
  split <;> rfl

/-- Environment for the C2 witness: one valid datapoint, harness completes
with exit code 0. -/
def envC2 : Env :=
  { root := "/proj", dataDirExists := true, files := [],
    fileExists := fun _ => true, allFiles := ["/proj/data_points/dp.json"],
    load := fun _ => LoadOutcome.loaded dpGood, maxWorkers := 1, timeoutSeconds := 1800,
    nspace := none, dryRun := false, harness := HarnessEvent.completed 0 }

/-- The prediction record that `envC2`'s single datapoint produces. -/
def predGood : Prediction :=
  { instance_id := PyVal.str "octo__repo-1",
    model_patch := PyVal.str "diff --git a/f.py b/f.py",
    model_name_or_path := "golden-patch-validator" }

/-- Witness for C2: the harness succeeded (code 0), so the run exits 0 with
the predictions file written and the harness invoked. -/
theorem C2_witness : mainRun envC2 = RunResult.exited 0 (some [predGood]) true true :=
  (C2_timeout_gives_2_and_exit_mapping.2.2 envC2 ["/proj/data_points/dp.json"] [predGood]
    "SWE-bench/SWE-bench" [PyVal.str "octo__repo-1"]
    rfl (by decide) rfl rfl rfl rfl rfl).trans rfl

/-- Environment for the C4 counterexample: one explicitly named target
that is a nonexistent absolute path.  Resolution leaves an absolute path
unchanged, so the raw-path existence click checks and the post-resolution
existence `main` would check are the same question; both answer `false`. -/
def envC4x : Env :=
  { root := "/proj", dataDirExists := true, files := ["/nowhere/x.json"],
    fileExists := fun _ => false, allFiles := [],
    load := fun _ => LoadOutcome.loaded dpGood, maxWorkers := 1, timeoutSeconds := 1800,
    nspace := none, dryRun := false, harness := HarnessEvent.completed 0 }

/-- Counterexample to C4 as stated: `/nowhere/x.json` is an explicitly
named target file that does not exist after path resolution (resolution is
the identity on absolute paths), yet the process exits 2 — click's
`Path(exists=True)` usage error, cli.py lines 183-187 — not 1. -/
theorem C4_counterexample :
    "/nowhere/x.json" ∈ envC4x.files
      ∧ envC4x.fileExists (resolveTarget envC4x.root "/nowhere/x.json") = false
      ∧ processRun (fun _ => false) envC4x = RunResult.exited 2 none false false
      ∧ processRun (fun _ => false) envC4x ≠ RunResult.exited 1 none false false := by
  refine ⟨by decide, rfl, rfl, ?_⟩
  intro h
  have h2 : RunResult.exited 2 none false false = RunResult.exited 1 none false false :=
    (rfl : processRun (fun _ => false) envC4x
        = RunResult.exited 2 none false false).symm.trans h
  exact absurd (RunResult.exited.inj h2).1 (by decide)

/-- Claim C4, amended: if every named argument passes click's raw-path
existence pre-check, then an absent data directory, or any named target
file that does not exist after path resolution, makes the process exit 1
before any validation and before any harness invocation; a named argument
whose raw path does not exist makes click abort the process with usage
error exit code 2, equally before any validation or harness invocation. -/
theorem C4_missing_inputs_abort_before_validation (rawExists : String → Bool) (env : Env) :
    (env.files.all rawExists = true → env.dataDirExists = false →
        processRun rawExists env = RunResult.exited 1 none false false)
      ∧ (env.files.all rawExists = true → ∀ f ∈ env.files,
          env.fileExists (resolveTarget env.root f) = false →
          processRun rawExists env = RunResult.exited 1 none false false)
      ∧ (∀ f ∈ env.files, rawExists f = false →
          processRun rawExists env = RunResult.exited 2 none false false) := by
  refine ⟨?_, ?_, ?_⟩
  · intro hall h
    unfold processRun
    rw [if_pos hall]
    have hts : targetsOf env = none := by simp [targetsOf, h]
    simp only [mainRun, hts]
  · intro hall f hf hmiss
    unfold processRun
    rw [if_pos hall]
    have hne : env.files ≠ [] := by
      intro hh
      rw [hh] at hf
      cases hf
    by_cases hdir : env.dataDirExists
    · have hts : targetsOf env = none := by
        unfold targetsOf
        rw [if_pos hdir, if_neg hne]
        exact resolveTargets_eq_none env.root env.fileExists env.files f hf hmiss
      simp only [mainRun, hts]
    · have hts : targetsOf env = none := by
        unfold targetsOf
        rw [if_neg hdir]
      simp only [mainRun, hts]
  · intro f hf hraw
    have hall : env.files.all rawExists = false := by
      cases hall : env.files.all rawExists
      · rfl
      · have := List.all_eq_true.mp hall f hf
        rw [hraw] at this
        cases this
    unfold processRun
    rw [if_neg (by simp [hall])]

/-- Environment for the C4 witness: one named file whose raw path exists
(so click accepts it) but which is missing after resolution against the
data directory. -/
def envC4 : Env :=
  { root := "/proj", dataDirExists := true, files := ["ghost.json"],
    fileExists := fun _ => false, allFiles := [],
    load := fun _ => LoadOutcome.loaded dpGood, maxWorkers := 1, timeoutSeconds := 1800,
    nspace := none, dryRun := false, harness := HarnessEvent.completed 0 }

/-- Witness for C4 (amended): the named file resolves to a missing path, so
the run exits 1 with no validation and no harness call. -/
theorem C4_witness : processRun (fun _ => true) envC4 = RunResult.exited 1 none false false :=
  (C4_missing_inputs_abort_before_validation (fun _ => true) envC4).2.1
    rfl "ghost.json" (by decide) rfl

/-- Claim C8: with at least one structurally valid datapoint, no structural
errors, and dry-run mode on, the run exits 0 without writing a predictions
file and without invoking the harness. -/
theorem C8_dry_run_exits_0_without_predictions (env : Env) (ts : List String)
    (hts : targetsOf env = some ts)
    (hvalid : (collect env.load ts).1 ≠ [])
    (herr : (collect env.load ts).2 = [])
    (hdry : env.dryRun = true) :
    mainRun env = RunResult.exited 0 none true false := by
  have hne : ts ≠ [] := by
    intro h
    subst h
    exact hvalid rfl
  simp only [mainRun, hts]
  rw [if_neg hne, if_pos herr, hdry, if_pos rfl]

/-- Environment for the C8 witness: one valid datapoint in dry-run mode. -/
def envC8 : Env :=
  { root := "/proj", dataDirExists := true, files := [],
    fileExists := fun _ => true, allFiles := ["/proj/data_points/dp.json"],
    load := fun _ => LoadOutcome.loaded dpGood, maxWorkers := 1, timeoutSeconds := 1800,
    nspace := none, dryRun := true, harness := HarnessEvent.timeout }

/-- Witness for C8: the dry run exits 0, writes nothing, invokes nothing. -/
theorem C8_witness : mainRun envC8 = RunResult.exited 0 none true false :=
  C8_dry_run_exits_0_without_predictions envC8 ["/proj/data_points/dp.json"] rfl
    (by intro h
        rw [show (collect envC8.load ["/proj/data_points/dp.json"]).1 = [dpGood] from rfl] at h
        cases h)
    rfl rfl
